import Mathlib

/-!
# Shallow embedding of the congestion-sim core

This file embeds, in Lean 4, the two source files of the repository:

* `src/simulation/node.py` — the per-agent `Node` class: reading per-tick
  data, reducing raw YOLO detections (`summarize_output`) and publishing the
  summary into the shared `data_pipe`.
* `src/carla/environment.py` — the `CarlaEnv` traffic analytics: intersection
  congestion statistics (`get_avg_velocity`, `increment_congestion_statistics`)
  and travel-time accounting (`increment_travelled_frames`,
  `calculate_travel_times`).

Python floats are modelled as `ℚ` where the code only compares and divides
(the detection reducer) and as `ℝ` where the code takes square roots
(`math.hypot`, `carla.Location.distance`).  Python's `float('inf')` result of
`get_avg_velocity` is modelled by `⊤ : EReal`, whose order mirrors IEEE
(`⊤ < c` is false for every finite `c`).  Python dicts keyed by the f-string
ids `vehicle_{i+1}` / `intersection_{i+1}` are modelled as functions from the
0-based index `i`, which is in bijection with the id string.
-/

namespace CongestionSim

/-! ## Data model of `src/simulation/node.py` -/

/-- One row of `raw_output.pandas().xyxy[0]`: the pandas table offers columns
xmin, ymin, xmax, ymax, confidence, class, name (node.py line 40). -/
structure YoloRow where
  name : String
  confidence : ℚ
  xmin : ℚ
  ymin : ℚ
  xmax : ℚ
  ymax : ℚ
deriving DecidableEq, Repr

/-- `EntityState` (from `data_models.agent_state`): the slice of it that
`summarize_output` reads. -/
structure EntityState where
  is_rsu : Bool
  x : ℚ
  y : ℚ
  direction : ℚ
  velocity : ℚ
deriving DecidableEq, Repr

/-- `DetectionData` from `data_models.output_summary` (node.py lines 58–67). -/
structure DetectionData where
  parent_id : String
  detection_id : String
  type : String
  xmin : ℚ
  xmax : ℚ
  ymin : ℚ
  ymax : ℚ
  timestep : ℕ
deriving DecidableEq, Repr

/-- `OutputSummary` from `data_models.output_summary` (node.py lines 70–79). -/
structure OutputSummary where
  node_id : String
  is_rsu : Bool
  agent_x : ℚ
  agent_y : ℚ
  direction : ℚ
  velocity : ℚ
  detections : List DetectionData
  timestep : ℕ
deriving DecidableEq, Repr

/-- The `DetectionData` record built for pandas row index `i` of the current
call (node.py lines 58–67): `detection_id=str(i)`, `type=row['name']`,
`timestep=self.env.now`. -/
def mkDetection (node_id : String) (now : ℕ) (i : ℕ) (row : YoloRow) :
    DetectionData :=
  { parent_id := node_id
    detection_id := toString i
    type := row.name
    xmin := row.xmin
    xmax := row.xmax
    ymin := row.ymin
    ymax := row.ymax
    timestep := now }

/-- The loop body of `summarize_output` (node.py lines 48–68), recursing over
the enumerated rows `(i, row)` of the pandas table.  A row survives when its
name is `'car'` or `'person'`; a surviving `'car'` row of a non-RSU owner is
additionally skipped (`continue`) when `ymin > im_shape[0] / 1.6` and
`ymax > im_shape[0] / 16`. -/
def summarize_aux (node_id : String) (now : ℕ) (im_height : ℚ)
    (state : EntityState) : List (ℕ × YoloRow) → List DetectionData
  | [] => []
  | (i, row) :: rest =>
    if row.name = "car" ∨ row.name = "person" then
      if state.is_rsu = false ∧ row.name = "car" ∧
          row.ymin > im_height / 1.6 ∧ row.ymax > im_height / 16 then
        summarize_aux node_id now im_height state rest
      else
        mkDetection node_id now i row ::
          summarize_aux node_id now im_height state rest
    else
      summarize_aux node_id now im_height state rest

/-- `Node.summarize_output` (node.py lines 33–80).  `raw_output` is the
pandas detection table, `im_height` is `im_shape[0]`, `now` is
`self.env.now`. -/
def summarize_output (node_id : String) (now : ℕ) (raw_output : List YoloRow)
    (im_height : ℚ) (state : EntityState) : OutputSummary :=
  { node_id := node_id
    is_rsu := state.is_rsu
    agent_x := state.x
    agent_y := state.y
    direction := state.direction
    velocity := state.velocity
    detections := summarize_aux node_id now im_height state raw_output.enum
    timestep := now }

/-! ## Node process and shared state of `src/simulation/node.py` -/

/-- A camera frame.  `height` is `image.shape[0]`, passed to
`summarize_output` as the first component of `im_shape` (node.py line 90);
`payload` abstracts the pixel contents consumed by the external model. -/
structure Image where
  height : ℚ
  payload : ℕ
deriving DecidableEq, Repr

/-- The external perception model (`model.forward(image)`, node.py line 89),
a black box mapping a frame to a raw detection table. -/
structure Model where
  forward : Image → List YoloRow

/-- Modelled from the spec: the `DataLoader` (`data.py`, not under `src/`)
serves entity state and camera frames keyed by (node id, tick); a read for a
(node id, tick) key whose data does not exist fails with an unavailable-data
error, modelled by `none`. -/
structure DataLoader where
  read_entity_state : String → ℕ → Option EntityState
  read_images : String → ℕ → Option Image

/-- `Node.read_data` (node.py lines 25–31): both reads are keyed by the node
id and the current tick `self.env.now`; the tick's data is available only
when both reads succeed. -/
def read_data (dl : DataLoader) (node_id : String) (now : ℕ) :
    Option (EntityState × Image) :=
  match dl.read_entity_state node_id now, dl.read_images node_id now with
  | some agent_state, some camera_image => some (agent_state, camera_image)
  | _, _ => none

/-- The shared `data_pipe`: a dict mapping a node id to that node's latest
published `OutputSummary` (node.py line 94); `none` for a node that never
published. -/
def DataPipe : Type := String → Option OutputSummary

/-- One iteration of `Node.run` (node.py lines 87–96) acting on the shared
`data_pipe`: read this tick's data, run the model, summarize, and store the
summary under `self.node_id`.  Modelled from the spec: a tick whose read
fails with an unavailable-data error is skipped and leaves the map
untouched (the exception handling lives outside `src/`). -/
def node_tick (dl : DataLoader) (model : Model) (node_id : String) (now : ℕ)
    (data_pipe : DataPipe) : DataPipe :=
  match read_data dl node_id now with
  | none => data_pipe
  | some (state, image) =>
    let raw_output := model.forward image
    let output := summarize_output node_id now raw_output image.height state
    fun m => if m = node_id then some output else data_pipe m

/-- `Node.run` over a list of consecutive ticks: each iteration processes one
tick and `yield self.env.timeout(1)` hands control back until the next tick
(node.py line 96). -/
def node_run (dl : DataLoader) (model : Model) (node_id : String) :
    List ℕ → DataPipe → DataPipe
  | [], data_pipe => data_pipe
  | t :: ts, data_pipe =>
    node_run dl model node_id ts (node_tick dl model node_id t data_pipe)

/-! ## Data model of `src/carla/environment.py` -/

/-- A CARLA `Location` / `Vector3D`: 3D coordinates, modelled over `ℝ`. -/
structure Vector3 where
  x : ℝ
  y : ℝ
  z : ℝ

/-- `carla.Location.distance`: Euclidean distance between two locations. -/
noncomputable def locDistance (a b : Vector3) : ℝ :=
  Real.sqrt ((a.x - b.x) ^ 2 + (a.y - b.y) ^ 2 + (a.z - b.z) ^ 2)

/-- `carla.TrafficLightState`. -/
inductive TrafficLightState where
  | Red
  | Yellow
  | Green
  | Off
  | Unknown
deriving DecidableEq, Repr

/-- The slice of a CARLA vehicle actor read by the traffic analytics:
`get_location()`, `get_velocity()` and `get_traffic_light_state()`. -/
structure Vehicle where
  location : Vector3
  velocity : Vector3
  traffic_light_state : TrafficLightState

/-- `CarlaEnv.is_in_intersection` (environment.py lines 164–170): the vehicle
is within `max_distance` (default 50) of the intersection location, strictly. -/
def is_in_intersection (vehicle : Vehicle) (intersection : Vector3)
    (max_distance : ℝ := 50) : Prop :=
  locDistance intersection vehicle.location < max_distance

/-- The inner condition of the `get_avg_velocity` loop (environment.py lines
177–178): the vehicle is in the intersection and its governing traffic light
state is green. -/
def qualifies (vehicle : Vehicle) (intersection : Vector3) : Prop :=
  is_in_intersection vehicle intersection ∧
    vehicle.traffic_light_state = TrafficLightState.Green

/-- `math.hypot(x, y) * 3.6` (environment.py line 180): the planar speed of a
vehicle in km/h. -/
noncomputable def speed_kmh (vehicle : Vehicle) : ℝ :=
  Real.sqrt (vehicle.velocity.x ^ 2 + vehicle.velocity.y ^ 2) * 3.6

open scoped Classical in
/-- `CarlaEnv.get_avg_velocity` (environment.py lines 172–183): fold the loop
accumulating `(velocities, n_vehicles)` over the vehicle list, then return
`velocities / n_vehicles` when `n_vehicles > 0` and `float('inf')` (modelled
by `⊤ : EReal`) otherwise. -/
noncomputable def get_avg_velocity (vehicle_list : List Vehicle)
    (intersection : Vector3) : EReal :=
  let acc : ℝ × ℕ := vehicle_list.foldl
    (fun p vehicle =>
      if qualifies vehicle intersection then
        (p.1 + speed_kmh vehicle, p.2 + 1)
      else p)
    (0, 0)
  if acc.2 > 0 then (((acc.1 / acc.2 : ℝ) : EReal)) else ⊤

open scoped Classical in
/-- `CarlaEnv.increment_congestion_statistics` loop body over the enumerated
intersections (environment.py lines 158–162): the counter of intersection `i`
(dict key `intersection_{i+1}`) is incremented when the average velocity is
strictly below `0.5 * speed_limit`. -/
noncomputable def congestion_aux (vehicle_list : List Vehicle)
    (speed_limit : ℝ) :
    List (ℕ × Vector3) → (ℕ → ℕ) → (ℕ → ℕ)
  | [], stats => stats
  | (i, intersection) :: rest, stats =>
    congestion_aux vehicle_list speed_limit rest
      (if get_avg_velocity vehicle_list intersection <
          ((0.5 * speed_limit : ℝ) : EReal) then
        fun j => if j = i then stats j + 1 else stats j
      else stats)

/-- `CarlaEnv.increment_congestion_statistics` (environment.py lines
156–162), with the congestion statistics dict modelled as a function from
the 0-based intersection index. -/
noncomputable def increment_congestion_statistics
    (vehicle_list : List Vehicle) (intersections : List Vector3)
    (congestion_statistics : ℕ → ℕ) (speed_limit : ℝ := 30.0) : ℕ → ℕ :=
  congestion_aux vehicle_list speed_limit intersections.enum
    congestion_statistics

open scoped Classical in
/-- Python's builtin `round` on a float with no `ndigits`: round to the
nearest integer, ties to the nearest even integer (banker's rounding). -/
noncomputable def pyRound (x : ℝ) : ℤ :=
  if x - ⌊x⌋ < 1 / 2 then ⌊x⌋
  else if x - ⌊x⌋ > 1 / 2 then ⌊x⌋ + 1
  else if Even ⌊x⌋ then ⌊x⌋ else ⌊x⌋ + 1

/-- The static data `increment_travelled_frames` reads: the spawn point
locations (`self.spawn_points[k].location`) and the destination spawn-point
index per vehicle (`self.destination_indices`, set by `set_route`; `none`
models the dict missing the vehicle's key).  Vehicle dict keys
`vehicle_{i+1}` are modelled by the 0-based index `i`. -/
structure TravelEnv where
  spawn_points : ℕ → Vector3
  destination_indices : ℕ → Option ℕ

/-- The mutable per-vehicle accounting state: `self.travelled_frames` and
`self.reached_destination`, keyed by the 0-based vehicle index. -/
structure TravelState where
  travelled_frames : ℕ → ℕ
  reached_destination : ℕ → Bool

open scoped Classical in
/-- The body of the `increment_travelled_frames` loop for the enumerated
vehicle `(i, loc)` where `loc` is `vehicle.get_location()` (environment.py
lines 242–255): skip vehicles without a destination; set
`reached_destination` on rounded (x, y) match; then increment
`travelled_frames` when the flag is still unset. -/
noncomputable def travel_step (env : TravelEnv) (i : ℕ) (loc : Vector3)
    (s : TravelState) : TravelState :=
  match env.destination_indices i with
  | none => s
  | some destination_index =>
    let destination := env.spawn_points destination_index
    let destination_x := pyRound destination.x
    let destination_y := pyRound destination.y
    let vehicle_x := pyRound loc.x
    let vehicle_y := pyRound loc.y
    let s1 :=
      if vehicle_x = destination_x ∧ vehicle_y = destination_y then
        { s with reached_destination :=
            fun j => if j = i then true else s.reached_destination j }
      else s
    if s1.reached_destination i = false then
      { s1 with travelled_frames :=
          fun j => if j = i then s1.travelled_frames j + 1
                   else s1.travelled_frames j }
    else s1

/-- The `increment_travelled_frames` loop over the enumerated vehicle
locations. -/
noncomputable def travel_aux (env : TravelEnv) :
    List (ℕ × Vector3) → TravelState → TravelState
  | [], s => s
  | (i, loc) :: rest, s => travel_aux env rest (travel_step env i loc s)

/-- `CarlaEnv.increment_travelled_frames` (environment.py lines 240–255):
one accounting pass over all spawned vehicles, `locs` listing the vehicles'
current locations in `self.vehicle_list` order. -/
noncomputable def increment_travelled_frames (env : TravelEnv)
    (locs : List Vector3) (s : TravelState) : TravelState :=
  travel_aux env locs.enum s

/-- A sequence of accounting passes, one per tick, each reading the vehicles'
locations of that tick. -/
noncomputable def travel_run (env : TravelEnv)
    (snapshots : List (List Vector3)) (s : TravelState) : TravelState :=
  snapshots.foldl (fun st locs => increment_travelled_frames env locs st) s

/-- `CarlaEnv.calculate_travel_times` (environment.py lines 257–262):
`travel_times[vehicle_id] = travelled_frames / self.fps`. -/
def calculate_travel_times (fps : ℕ) (s : TravelState) : ℕ → ℚ :=
  fun i => (s.travelled_frames i : ℚ) / fps

/-! ## Travel-accounting lemmas -/

lemma travel_step_other {env : TravelEnv} {j : ℕ} {loc : Vector3}
    {s : TravelState} {i : ℕ} (h : j ≠ i) :
    (travel_step env j loc s).travelled_frames i = s.travelled_frames i ∧
      (travel_step env j loc s).reached_destination i
        = s.reached_destination i := by
  unfold travel_step
  cases hd : env.destination_indices j with
  | none => exact ⟨rfl, rfl⟩
  | some d =>
    have hji : i ≠ j := Ne.symm h
    simp only
    split_ifs <;> refine ⟨?_, ?_⟩ <;> simp [hji]

lemma travel_step_reached {env : TravelEnv} {i : ℕ} {loc : Vector3}
    {s : TravelState} (h : s.reached_destination i = true) :
    (travel_step env i loc s).travelled_frames i = s.travelled_frames i ∧
      (travel_step env i loc s).reached_destination i = true := by
  unfold travel_step
  cases hd : env.destination_indices i with
  | none => exact ⟨rfl, h⟩
  | some d =>
    simp only
    split_ifs with h1 h2 h3 <;> simp_all

lemma travel_step_preserves {env : TravelEnv} {j : ℕ} {loc : Vector3}
    {s : TravelState} {i : ℕ} (h : s.reached_destination i = true) :
    (travel_step env j loc s).travelled_frames i = s.travelled_frames i ∧
      (travel_step env j loc s).reached_destination i = true := by
  by_cases hij : j = i
  · subst hij; exact travel_step_reached h
  · obtain ⟨h1, h2⟩ := @travel_step_other env j loc s i hij
    exact ⟨h1, h2.trans h⟩

lemma travel_aux_preserves {env : TravelEnv} {i : ℕ} :
    ∀ (L : List (ℕ × Vector3)) (s : TravelState),
      s.reached_destination i = true →
      (travel_aux env L s).travelled_frames i = s.travelled_frames i ∧
        (travel_aux env L s).reached_destination i = true
  | [], s, h => ⟨rfl, h⟩
  | (j, loc) :: rest, s, h => by
    obtain ⟨h1, h2⟩ := @travel_step_preserves env j loc s i h
    obtain ⟨h3, h4⟩ := travel_aux_preserves rest (travel_step env j loc s) h2
    exact ⟨h3.trans h1, h4⟩

lemma travel_run_preserves {env : TravelEnv} {i : ℕ} :
    ∀ (snapshots : List (List Vector3)) (s : TravelState),
      s.reached_destination i = true →
      (travel_run env snapshots s).travelled_frames i = s.travelled_frames i ∧
        (travel_run env snapshots s).reached_destination i = true
  | [], _, h => ⟨rfl, h⟩
  | locs :: rest, s, h => by
    obtain ⟨h1, h2⟩ := @travel_aux_preserves env i locs.enum s h
    obtain ⟨h3, h4⟩ := travel_run_preserves rest
      (increment_travelled_frames env locs s) h2
    exact ⟨h3.trans h1, h4⟩

lemma travel_step_nodest {env : TravelEnv} {i : ℕ}
    (hd : env.destination_indices i = none) (j : ℕ) (loc : Vector3)
    (s : TravelState) :
    (travel_step env j loc s).travelled_frames i = s.travelled_frames i := by
  by_cases hij : j = i
  · subst hij
    unfold travel_step
    rw [hd]
  · exact (travel_step_other hij).1

lemma travel_aux_nodest {env : TravelEnv} {i : ℕ}
    (hd : env.destination_indices i = none) :
    ∀ (L : List (ℕ × Vector3)) (s : TravelState),
      (travel_aux env L s).travelled_frames i = s.travelled_frames i
  | [], _ => rfl
  | (j, loc) :: rest, s =>
    (travel_aux_nodest hd rest (travel_step env j loc s)).trans
      (travel_step_nodest hd j loc s)

lemma travel_run_nodest {env : TravelEnv} {i : ℕ}
    (hd : env.destination_indices i = none) :
    ∀ (snapshots : List (List Vector3)) (s : TravelState),
      (travel_run env snapshots s).travelled_frames i = s.travelled_frames i
  | [], _ => rfl
  | locs :: rest, s =>
    (travel_run_nodest hd rest (increment_travelled_frames env locs s)).trans
      (travel_aux_nodest hd locs.enum s)

lemma travel_aux_append (env : TravelEnv) :
    ∀ (L₁ L₂ : List (ℕ × Vector3)) (s : TravelState),
      travel_aux env (L₁ ++ L₂) s = travel_aux env L₂ (travel_aux env L₁ s)
  | [], _, _ => rfl
  | (j, loc) :: rest, L₂, s => by
    simpa [travel_aux] using travel_aux_append env rest L₂ (travel_step env j loc s)

lemma travel_aux_keys_ne {env : TravelEnv} {i : ℕ} :
    ∀ (L : List (ℕ × Vector3)) (s : TravelState),
      (∀ p ∈ L, p.1 ≠ i) →
      (travel_aux env L s).travelled_frames i = s.travelled_frames i ∧
        (travel_aux env L s).reached_destination i
          = s.reached_destination i
  | [], _, _ => ⟨rfl, rfl⟩
  | (j, loc) :: rest, s, h => by
    have hj : j ≠ i := h (j, loc) (List.mem_cons_self _ _)
    obtain ⟨h1, h2⟩ := @travel_step_other env j loc s i hj
    obtain ⟨h3, h4⟩ := travel_aux_keys_ne rest (travel_step env j loc s)
      (fun p hp => h p (List.mem_cons_of_mem _ hp))
    exact ⟨h3.trans h1, h4.trans h2⟩

lemma travel_step_arrival {env : TravelEnv} {i : ℕ} {loc : Vector3}
    {s : TravelState} {d : ℕ}
    (hd : env.destination_indices i = some d)
    (hx : pyRound loc.x = pyRound (env.spawn_points d).x)
    (hy : pyRound loc.y = pyRound (env.spawn_points d).y) :
    (travel_step env i loc s).travelled_frames i = s.travelled_frames i ∧
      (travel_step env i loc s).reached_destination i = true := by
  unfold travel_step
  rw [hd]
  simp [hx, hy]

/-! ## Concrete inputs used by the witnesses -/

/-- A travel environment whose every spawn point is the origin and whose
every vehicle has destination spawn point 0. -/
def envAllDest : TravelEnv :=
  { spawn_points := fun _ => ⟨0, 0, 0⟩
    destination_indices := fun _ => some 0 }

/-- A travel environment in which no vehicle has an assigned destination. -/
def envNoDest : TravelEnv :=
  { spawn_points := fun _ => ⟨0, 0, 0⟩
    destination_indices := fun _ => none }

/-- A travel state with every vehicle already arrived after 5 counted
frames. -/
def stateArrived : TravelState :=
  { travelled_frames := fun _ => 5
    reached_destination := fun _ => true }

/-- The travel state right after `spawn_vehicle`: `travelled_frames` 0 and
`reached_destination` false (environment.py lines 141–142). -/
def stateFresh : TravelState :=
  { travelled_frames := fun _ => 0
    reached_destination := fun _ => false }

/-- A travel state of a vehicle still under way after 7 counted frames. -/
def stateUnderway : TravelState :=
  { travelled_frames := fun _ => 7
    reached_destination := fun _ => false }

/-! ## Claims C3, C9, C10 -/

/-- C3: for every vehicle `i` and every sequence of travel-accounting passes,
once `reached_destination[i]` is true it remains true for the rest of the
run, and `travelled_frames[i]` never changes again from that call onward. -/
theorem reached_destination_monotone (env : TravelEnv)
    (snapshots : List (List Vector3)) (s : TravelState) (i : ℕ)
    (h : s.reached_destination i = true) :
    (travel_run env snapshots s).reached_destination i = true ∧
      (travel_run env snapshots s).travelled_frames i
        = s.travelled_frames i := by
  obtain ⟨h1, h2⟩ := travel_run_preserves snapshots s h
  exact ⟨h2, h1⟩

/-- Witness for C3 at a concrete arrived state and one further snapshot. -/
theorem reached_destination_monotone_witness :
    (travel_run envAllDest [[⟨1, 2, 3⟩]] stateArrived).reached_destination 0
        = true ∧
      (travel_run envAllDest [[⟨1, 2, 3⟩]] stateArrived).travelled_frames 0
        = 5 :=
  reached_destination_monotone envAllDest [[⟨1, 2, 3⟩]] stateArrived 0 rfl

/-- C9: a vehicle with no entry in `destination_indices` is silently skipped
by every travel-accounting pass: its `travelled_frames` stays at the
initialization value 0 for the whole run, and its travel time
(`travelled_frames / fps`) is defined and stays 0. -/
theorem no_destination_travel_time_zero (env : TravelEnv)
    (snapshots : List (List Vector3)) (s : TravelState) (i : ℕ) (fps : ℕ)
    (hd : env.destination_indices i = none)
    (h0 : s.travelled_frames i = 0) :
    (travel_run env snapshots s).travelled_frames i = 0 ∧
      calculate_travel_times fps (travel_run env snapshots s) i = 0 := by
  have h := (travel_run_nodest hd snapshots s).trans h0
  refine ⟨h, ?_⟩
  simp [calculate_travel_times, h]

/-- Witness for C9 at a fresh state, two snapshots and fps 30. -/
theorem no_destination_travel_time_zero_witness :
    (travel_run envNoDest [[⟨0, 0, 0⟩], [⟨4, 5, 6⟩]] stateFresh).travelled_frames 0
        = 0 ∧
      calculate_travel_times 30
        (travel_run envNoDest [[⟨0, 0, 0⟩], [⟨4, 5, 6⟩]] stateFresh) 0 = 0 :=
  no_destination_travel_time_zero envNoDest [[⟨0, 0, 0⟩], [⟨4, 5, 6⟩]]
    stateFresh 0 30 rfl rfl

/-- C10: on the accounting pass in which vehicle `i`'s rounded (x, y)
position equals the rounded destination, `reached_destination` is set before
the increment check, so `travelled_frames` is not incremented on the arrival
tick itself. -/
theorem arrival_tick_not_counted (env : TravelEnv) (locs : List Vector3)
    (s : TravelState) (i : ℕ) (loc : Vector3) (d : ℕ)
    (hloc : locs.get? i = some loc)
    (hd : env.destination_indices i = some d)
    (hx : pyRound loc.x = pyRound (env.spawn_points d).x)
    (hy : pyRound loc.y = pyRound (env.spawn_points d).y) :
    (increment_travelled_frames env locs s).travelled_frames i
        = s.travelled_frames i ∧
      (increment_travelled_frames env locs s).reached_destination i
        = true := by
  obtain ⟨hlen, hget⟩ := List.get?_eq_some.mp hloc
  have hsplit : locs = locs.take i ++ loc :: locs.drop (i + 1) := by
    conv_lhs => rw [← List.take_append_drop i locs]
    rw [List.drop_eq_getElem_cons hlen]
    rw [← hget]
    rfl
  have htake : (locs.take i).length = i := by
    rw [List.length_take]
    omega
  have henum : locs.enum
      = List.enumFrom 0 (locs.take i)
        ++ (i, loc) :: List.enumFrom (i + 1) (locs.drop (i + 1)) := by
    conv_lhs => rw [hsplit]
    rw [List.enum_eq_enumFrom, List.enumFrom_append, htake,
      List.enumFrom_cons]
    simp
  have hkeysA : ∀ p ∈ List.enumFrom 0 (locs.take i), Prod.fst p ≠ i := by
    rintro ⟨j, v⟩ hp
    obtain ⟨-, hj, -⟩ := List.mem_enumFrom hp
    rw [htake] at hj
    omega
  have hkeysB :
      ∀ p ∈ List.enumFrom (i + 1) (locs.drop (i + 1)), Prod.fst p ≠ i := by
    rintro ⟨j, v⟩ hp
    obtain ⟨hj, -, -⟩ := List.mem_enumFrom hp
    omega
  obtain ⟨hA1, hA2⟩ := @travel_aux_keys_ne env i
    (List.enumFrom 0 (locs.take i)) s hkeysA
  obtain ⟨hS1, hS2⟩ := @travel_step_arrival env i loc
    (travel_aux env (List.enumFrom 0 (locs.take i)) s) d hd hx hy
  obtain ⟨hB1, hB2⟩ := @travel_aux_keys_ne env i
    (List.enumFrom (i + 1) (locs.drop (i + 1)))
    (travel_step env i loc (travel_aux env (List.enumFrom 0 (locs.take i)) s))
    hkeysB
  unfold increment_travelled_frames
  rw [henum, travel_aux_append]
  simp only [travel_aux]
  exact ⟨hB1.trans (hS1.trans hA1), hB2.trans hS2⟩

/-- Witness for C10: one vehicle standing exactly on its destination. -/
theorem arrival_tick_not_counted_witness :
    (increment_travelled_frames envAllDest [⟨0, 0, 0⟩]
        stateUnderway).travelled_frames 0 = 7 ∧
      (increment_travelled_frames envAllDest [⟨0, 0, 0⟩]
        stateUnderway).reached_destination 0 = true :=
  arrival_tick_not_counted envAllDest [⟨0, 0, 0⟩] stateUnderway 0 ⟨0, 0, 0⟩ 0
    rfl rfl rfl rfl

/-! ## Detection-reducer lemmas -/

/-- The condition under which a pandas row survives `summarize_output`
(node.py lines 49–56): its name is `'car'` or `'person'`, and it is not
removed by the self-detection filter. -/
def keeps (im_height : ℚ) (state : EntityState) (row : YoloRow) : Prop :=
  (row.name = "car" ∨ row.name = "person") ∧
    ¬(state.is_rsu = false ∧ row.name = "car" ∧
      row.ymin > im_height / 1.6 ∧ row.ymax > im_height / 16)

instance (im_height : ℚ) (state : EntityState) (row : YoloRow) :
    Decidable (keeps im_height state row) := by
  unfold keeps
  infer_instance

lemma summarize_aux_eq_filterMap (node_id : String) (now : ℕ)
    (im_height : ℚ) (state : EntityState) :
    ∀ L : List (ℕ × YoloRow),
      summarize_aux node_id now im_height state L
        = L.filterMap (fun p =>
            if keeps im_height state p.2
            then some (mkDetection node_id now p.1 p.2) else none)
  | [] => rfl
  | (i, row) :: rest => by
    have ih := summarize_aux_eq_filterMap node_id now im_height state rest
    by_cases h1 : row.name = "car" ∨ row.name = "person"
    · by_cases h2 : state.is_rsu = false ∧ row.name = "car" ∧
          row.ymin > im_height / 1.6 ∧ row.ymax > im_height / 16
      · have hk : ¬keeps im_height state row := fun hk => hk.2 h2
        simp [summarize_aux, h1, h2, List.filterMap_cons, hk, ih]
      · have hk : keeps im_height state row := ⟨h1, h2⟩
        simp [summarize_aux, h1, h2, List.filterMap_cons, hk, ih]
    · have hk : ¬keeps im_height state row := fun hk => h1 hk.1
      simp [summarize_aux, h1, List.filterMap_cons, hk, ih]

lemma type_of_mem_summarize_aux {node_id : String} {now : ℕ}
    {im_height : ℚ} {state : EntityState} {L : List (ℕ × YoloRow)}
    {d : DetectionData}
    (h : d ∈ summarize_aux node_id now im_height state L) :
    d.type = "car" ∨ d.type = "person" := by
  rw [summarize_aux_eq_filterMap] at h
  obtain ⟨p, -, hsome⟩ := List.mem_filterMap.mp h
  by_cases hk : keeps im_height state p.2
  · rw [if_pos hk, Option.some_inj] at hsome
    have : d.type = p.2.name := by rw [← hsome]; rfl
    rw [this]
    exact hk.1
  · rw [if_neg hk] at hsome
    exact absurd hsome (by simp)

lemma tags_of_mem_summarize_aux {node_id : String} {now : ℕ}
    {im_height : ℚ} {state : EntityState} {L : List (ℕ × YoloRow)}
    {d : DetectionData}
    (h : d ∈ summarize_aux node_id now im_height state L) :
    d.parent_id = node_id ∧ d.timestep = now := by
  rw [summarize_aux_eq_filterMap] at h
  obtain ⟨p, -, hsome⟩ := List.mem_filterMap.mp h
  by_cases hk : keeps im_height state p.2
  · rw [if_pos hk, Option.some_inj] at hsome
    rw [← hsome]
    exact ⟨rfl, rfl⟩
  · rw [if_neg hk] at hsome
    exact absurd hsome (by simp)

lemma enum_split (pre post : List YoloRow) (row : YoloRow) :
    (pre ++ row :: post).enum
      = List.enumFrom 0 pre
        ++ (pre.length, row) :: List.enumFrom (pre.length + 1) post := by
  rw [List.enum_eq_enumFrom, List.enumFrom_append, List.enumFrom_cons]
  simp

lemma summarize_detections_split (node_id : String) (now : ℕ)
    (im_height : ℚ) (state : EntityState) (pre post : List YoloRow)
    (row : YoloRow) :
    (summarize_output node_id now (pre ++ row :: post) im_height
        state).detections
      = summarize_aux node_id now im_height state (List.enumFrom 0 pre)
        ++ (if keeps im_height state row
            then [mkDetection node_id now pre.length row] else [])
        ++ summarize_aux node_id now im_height state
            (List.enumFrom (pre.length + 1) post) := by
  show summarize_aux node_id now im_height state (pre ++ row :: post).enum = _
  rw [enum_split, summarize_aux_eq_filterMap, List.filterMap_append,
    List.filterMap_cons, ← summarize_aux_eq_filterMap,
    ← summarize_aux_eq_filterMap]
  by_cases hk : keeps im_height state row
  · rw [if_pos hk, if_pos hk]
    simp
  · rw [if_neg hk, if_neg hk]
    simp

/-- A roadside-unit owner state. -/
def rsuState : EntityState := ⟨true, 0, 0, 0, 0⟩

/-- A mobile-vehicle owner state. -/
def mobileState : EntityState := ⟨false, 0, 0, 0, 0⟩

/-! ## Claims C4, C5, C6 -/

/-- Counterexample to C4 as stated: for a mobile (non-RSU) owner, a row whose
class label is literally `"vehicle"` with `ymin = 0, ymax = 0` is dropped by
the reducer although the claimed iff-condition for dropping
(`ymin > H / 1.6 ∧ ymax > H / 16`) does not hold: the code's class filter
matches the label `'car'`, not `"vehicle"`, so a `"vehicle"` row never
survives. -/
theorem vehicle_label_suppression_cx :
    (summarize_output "n1" 0 [⟨"vehicle", 1, 0, 0, 10, 0⟩] 100
        mobileState).detections = [] ∧
      ¬(mobileState.is_rsu = false ∧ (0 : ℚ) > 100 / 1.6 ∧
          (0 : ℚ) > 100 / 16) := by
  refine ⟨by decide, ?_⟩
  norm_num [mobileState]

/-- C4 (amended: the detected class label is `'car'`, the code's literal, not
`"vehicle"`): a surviving-class row (`'car'` or `'person'`) at input position
`pre.length` is dropped by the reducer iff the owner is a mobile vehicle
(`is_rsu` false) and the class is `'car'` and both `ymin > H / 1.6` and
`ymax > H / 16` hold; in particular the suppression never applies to an RSU
owner or to a `'person'` row. -/
theorem car_row_suppression_iff (node_id : String) (now : ℕ) (im_height : ℚ)
    (state : EntityState) (pre post : List YoloRow) (row : YoloRow)
    (hname : row.name = "car" ∨ row.name = "person") :
    (summarize_output node_id now (pre ++ row :: post) im_height
        state).detections
      = summarize_aux node_id now im_height state (List.enumFrom 0 pre)
        ++ (if state.is_rsu = false ∧ row.name = "car" ∧
              row.ymin > im_height / 1.6 ∧ row.ymax > im_height / 16
            then []
            else [mkDetection node_id now pre.length row])
        ++ summarize_aux node_id now im_height state
            (List.enumFrom (pre.length + 1) post) := by
  rw [summarize_detections_split]
  by_cases h2 : state.is_rsu = false ∧ row.name = "car" ∧
      row.ymin > im_height / 1.6 ∧ row.ymax > im_height / 16
  · have hk : ¬keeps im_height state row := fun hk => hk.2 h2
    rw [if_pos h2, if_neg hk]
  · have hk : keeps im_height state row := ⟨hname, h2⟩
    rw [if_neg h2, if_pos hk]

/-- Witness for C4 (amended), on the spec's example geometry: for a non-RSU
owner and image height 100, a `'car'` row with `ymin = 70 = 0.7·H` and
`ymax = 90 = 0.9·H` is suppressed. -/
theorem car_row_suppression_iff_witness :
    (summarize_output "n1" 3 [⟨"car", 1, 0, 70, 10, 90⟩] 100
        mobileState).detections = [] := by
  have h := car_row_suppression_iff "n1" 3 100 mobileState [] []
    ⟨"car", 1, 0, 70, 10, 90⟩ (Or.inl rfl)
  refine h.trans ?_
  norm_num [summarize_aux, mobileState]

/-- Counterexample to C5 as stated: a row whose class label is `"car"` — a
label other than `"vehicle"` and `"person"` — survives the reducer instead of
being dropped unconditionally: the code's allow-list is `{'car', 'person'}`,
not `{"vehicle", "person"}`. -/
theorem class_filter_vehicle_label_cx :
    ((summarize_output "n1" 0 [⟨"car", 1, 0, 0, 10, 0⟩] 100
        rsuState).detections.map (fun d => d.type) = ["car"]) ∧
      ¬("car" = "vehicle" ∨ "car" = "person") := by
  decide

/-- C5 (amended: the class allow-list is `{'car', 'person'}`, the code's
literals, not `{"vehicle", "person"}`): every surviving record has class
`'car'` or `'person'`, and a row with any other class label contributes
nothing to the output, regardless of its geometry or the owner's state. -/
theorem class_filter_keeps_car_person (node_id : String) (now : ℕ)
    (im_height : ℚ) (state : EntityState)
    (raw_output pre post : List YoloRow) (row : YoloRow) :
    (∀ d ∈ (summarize_output node_id now raw_output im_height
        state).detections, d.type = "car" ∨ d.type = "person") ∧
      (row.name ≠ "car" → row.name ≠ "person" →
        (summarize_output node_id now (pre ++ row :: post) im_height
            state).detections
          = summarize_aux node_id now im_height state (List.enumFrom 0 pre)
            ++ summarize_aux node_id now im_height state
                (List.enumFrom (pre.length + 1) post)) := by
  constructor
  · intro d hd
    exact type_of_mem_summarize_aux hd
  · intro h1 h2
    rw [summarize_detections_split]
    have hk : ¬keeps im_height state row := fun hk => hk.1.elim h1 h2
    rw [if_neg hk]
    simp

/-- Witness for C5 (amended): a `'dog'` row is dropped by the class filter
while the following `'person'` row survives. -/
theorem class_filter_keeps_car_person_witness :
    (summarize_output "n1" 2
        [⟨"dog", 1, 0, 0, 10, 0⟩, ⟨"person", 1, 0, 0, 10, 10⟩] 100
        mobileState).detections
      = [mkDetection "n1" 2 1 ⟨"person", 1, 0, 0, 10, 10⟩] := by
  have h := (class_filter_keeps_car_person "n1" 2 100 mobileState []
      [] [⟨"person", 1, 0, 0, 10, 10⟩] ⟨"dog", 1, 0, 0, 10, 0⟩).2
      (by decide) (by decide)
  exact h.trans (by decide)

/-- C6: the reducer's output is exactly one `DetectionData` per surviving
row, in input row order (a `filterMap` over the enumerated input rows), each
record tagged with the owning node id, the detection index `str(i)` assigned
from the row's position in the call's input table, and the current tick. -/
theorem summarize_output_order_and_tags (node_id : String) (now : ℕ)
    (im_height : ℚ) (state : EntityState) (raw_output : List YoloRow) :
    (summarize_output node_id now raw_output im_height state).detections
      = raw_output.enum.filterMap (fun p =>
          if keeps im_height state p.2
          then some (mkDetection node_id now p.1 p.2) else none) ∧
      ∀ d ∈ (summarize_output node_id now raw_output im_height
          state).detections, d.parent_id = node_id ∧ d.timestep = now := by
  refine ⟨summarize_aux_eq_filterMap node_id now im_height state _, ?_⟩
  intro d hd
  exact tags_of_mem_summarize_aux hd

/-- Witness for C6: three rows (`'car'` kept, `'dog'` dropped, `'person'`
kept) produce two records in input order carrying input row indices 0 and 2,
the node id and the tick. -/
theorem summarize_output_order_and_tags_witness :
    (summarize_output "n7" 5
        [⟨"car", 1, 0, 0, 10, 0⟩, ⟨"dog", 1, 0, 0, 10, 0⟩,
         ⟨"person", 1, 0, 0, 10, 10⟩] 100 mobileState).detections
      = [mkDetection "n7" 5 0 ⟨"car", 1, 0, 0, 10, 0⟩,
         mkDetection "n7" 5 2 ⟨"person", 1, 0, 0, 10, 10⟩] ∧
      (mkDetection "n7" 5 0 ⟨"car", 1, 0, 0, 10, 0⟩).parent_id = "n7" ∧
      (mkDetection "n7" 5 0 ⟨"car", 1, 0, 0, 10, 0⟩).timestep = 5 := by
  have h := summarize_output_order_and_tags "n7" 5 100 mobileState
    [⟨"car", 1, 0, 0, 10, 0⟩, ⟨"dog", 1, 0, 0, 10, 0⟩,
     ⟨"person", 1, 0, 0, 10, 10⟩]
  have hev : (summarize_output "n7" 5
      [⟨"car", 1, 0, 0, 10, 0⟩, ⟨"dog", 1, 0, 0, 10, 0⟩,
       ⟨"person", 1, 0, 0, 10, 10⟩] 100 mobileState).detections
      = [mkDetection "n7" 5 0 ⟨"car", 1, 0, 0, 10, 0⟩,
         mkDetection "n7" 5 2 ⟨"person", 1, 0, 0, 10, 10⟩] := by
    rw [h.1]
    norm_num [keeps, mobileState, List.enum_eq_enumFrom, List.enumFrom,
      List.filterMap_cons]
    rw [if_neg (show ¬("dog" = "car" ∨ "dog" = "person") by decide)]
  refine ⟨hev, h.2 _ ?_⟩
  rw [hev]
  simp

/-! ## Node process lemmas and claims C7, C8 -/

lemma read_data_none {dl : DataLoader} {node_id : String} {t : ℕ}
    (hfail : dl.read_entity_state node_id t = none ∨
      dl.read_images node_id t = none) :
    read_data dl node_id t = none := by
  unfold read_data
  rcases hfail with h | h
  · rw [h]
  · rw [h]
    cases dl.read_entity_state node_id t <;> rfl

lemma node_tick_other (dl : DataLoader) (model : Model) (other_id : String)
    (t : ℕ) (P : DataPipe) (m : String) (hm : m ≠ other_id) :
    node_tick dl model other_id t P m = P m := by
  unfold node_tick
  cases hr : read_data dl other_id t with
  | none => rfl
  | some si =>
    obtain ⟨s, i⟩ := si
    simp [hm]

/-- The always-failing data source: no entity state or frame exists for any
(node, tick) key. -/
def dlFail : DataLoader :=
  { read_entity_state := fun _ _ => none
    read_images := fun _ _ => none }

/-- A data source for which every (node, tick) read succeeds. -/
def dlOk : DataLoader :=
  { read_entity_state := fun _ _ => some mobileState
    read_images := fun _ _ => some ⟨100, 0⟩ }

/-- A perception model detecting nothing. -/
def modelEmpty : Model := { forward := fun _ => [] }

/-- The empty latest-summary map: no node has published yet. -/
def pipeEmpty : DataPipe := fun _ => none

/-- C7 (DataLoader modelled from the spec, `data.py` not being under
`src/`): if reading the entity state or the camera frame of node `n` at tick
`t` fails, only that tick fails: the latest-summary map is left untouched
(node `n`'s entry retains the previous tick's value, or stays absent if the
node never published), and the node proceeds with the remaining ticks of the
run normally. -/
theorem failed_tick_skipped (dl : DataLoader) (model : Model)
    (node_id : String) (t : ℕ) (ts : List ℕ) (data_pipe : DataPipe)
    (hfail : dl.read_entity_state node_id t = none ∨
      dl.read_images node_id t = none) :
    node_tick dl model node_id t data_pipe = data_pipe ∧
      node_run dl model node_id (t :: ts) data_pipe
        = node_run dl model node_id ts data_pipe := by
  have hskip : node_tick dl model node_id t data_pipe = data_pipe := by
    unfold node_tick
    rw [read_data_none hfail]
  exact ⟨hskip, by rw [node_run, hskip]⟩

/-- Witness for C7: a node whose every read fails skips tick 0 and proceeds
to tick 1. -/
theorem failed_tick_skipped_witness :
    node_tick dlFail modelEmpty "n1" 0 pipeEmpty = pipeEmpty ∧
      node_run dlFail modelEmpty "n1" [0, 1] pipeEmpty
        = node_run dlFail modelEmpty "n1" [1] pipeEmpty :=
  failed_tick_skipped dlFail modelEmpty "n1" 0 [1] pipeEmpty (Or.inl rfl)

/-- C8: a successful tick `t` of node `n` publishes exactly that tick's
summary under key `n`; reading the map at `n` then returns it unchanged —
no other node's publish ever touches `n`'s entry — until `n`'s next
successful tick overwrites it; a publish changes no other node's entry (the
map keeps one live entry per node id). -/
theorem publish_round_trip (dl : DataLoader) (model : Model)
    (node_id : String) (t t' : ℕ) (data_pipe : DataPipe)
    (state state' : EntityState) (image image' : Image)
    (h : read_data dl node_id t = some (state, image))
    (h' : read_data dl node_id t' = some (state', image')) :
    (node_tick dl model node_id t data_pipe) node_id
        = some (summarize_output node_id t (model.forward image)
            image.height state) ∧
      (∀ m, m ≠ node_id →
        (node_tick dl model node_id t data_pipe) m = data_pipe m) ∧
      (∀ other_id, other_id ≠ node_id → ∀ (P : DataPipe) (u : ℕ),
        node_tick dl model other_id u P node_id = P node_id) ∧
      (node_tick dl model node_id t'
          (node_tick dl model node_id t data_pipe)) node_id
        = some (summarize_output node_id t' (model.forward image')
            image'.height state') := by
  refine ⟨?_, ?_, ?_, ?_⟩
  · unfold node_tick
    rw [h]
    simp
  · intro m hm
    exact node_tick_other dl model node_id t data_pipe m hm
  · intro other_id hother P u
    exact node_tick_other dl model other_id u P node_id (Ne.symm hother)
  · unfold node_tick
    rw [h']
    simp


/-- Witness for C8: node "n1" publishes at tick 5 and overwrites at tick 6
against an always-succeeding data source. -/
theorem publish_round_trip_witness :
    (node_tick dlOk modelEmpty "n1" 5 pipeEmpty) "n1"
        = some (summarize_output "n1" 5 (modelEmpty.forward ⟨100, 0⟩)
            (100 : ℚ) mobileState) ∧
      (∀ m, m ≠ "n1" →
        (node_tick dlOk modelEmpty "n1" 5 pipeEmpty) m = pipeEmpty m) ∧
      (∀ other_id, other_id ≠ "n1" → ∀ (P : DataPipe) (u : ℕ),
        node_tick dlOk modelEmpty other_id u P "n1" = P "n1") ∧
      (node_tick dlOk modelEmpty "n1" 6
          (node_tick dlOk modelEmpty "n1" 5 pipeEmpty)) "n1"
        = some (summarize_output "n1" 6 (modelEmpty.forward ⟨100, 0⟩)
            (100 : ℚ) mobileState) :=
  publish_round_trip dlOk modelEmpty "n1" 5 6 pipeEmpty mobileState
    mobileState ⟨100, 0⟩ ⟨100, 0⟩ rfl rfl

/-! ## Traffic-analytics lemmas -/

open scoped Classical in
/-- The vehicles that contribute to `get_avg_velocity`: within the default
50-unit radius of the intersection and with a green governing light. -/
noncomputable def qualifying_vehicles (vehicle_list : List Vehicle)
    (intersection : Vector3) : List Vehicle :=
  vehicle_list.filter (fun v => decide (qualifies v intersection))

open scoped Classical in
lemma avg_acc_spec (intersection : Vector3) :
    ∀ (l : List Vehicle) (s : ℝ) (n : ℕ),
      l.foldl
        (fun p vehicle =>
          if qualifies vehicle intersection then
            (p.1 + speed_kmh vehicle, p.2 + 1)
          else p)
        (s, n)
      = (s + ((qualifying_vehicles l intersection).map speed_kmh).sum,
          n + (qualifying_vehicles l intersection).length)
  | [], s, n => by simp [qualifying_vehicles]
  | v :: rest, s, n => by
    by_cases hq : qualifies v intersection
    · rw [List.foldl_cons, if_pos hq, avg_acc_spec intersection rest]
      unfold qualifying_vehicles
      rw [List.filter_cons_of_pos
        (p := fun u => decide (qualifies u intersection))
        (decide_eq_true hq)]
      simp only [List.map_cons, List.sum_cons, List.length_cons,
        Prod.mk.injEq]
      constructor
      · ring
      · omega
    · rw [List.foldl_cons, if_neg hq, avg_acc_spec intersection rest]
      unfold qualifying_vehicles
      rw [List.filter_cons_of_neg
        (p := fun u => decide (qualifies u intersection))
        (by simpa using hq)]

lemma get_avg_velocity_empty {vehicle_list : List Vehicle}
    {intersection : Vector3}
    (h : qualifying_vehicles vehicle_list intersection = []) :
    get_avg_velocity vehicle_list intersection = ⊤ := by
  unfold get_avg_velocity
  rw [avg_acc_spec, h]
  simp

lemma get_avg_velocity_mean {vehicle_list : List Vehicle}
    {intersection : Vector3}
    (h : qualifying_vehicles vehicle_list intersection ≠ []) :
    get_avg_velocity vehicle_list intersection
      = ((((qualifying_vehicles vehicle_list intersection).map
            speed_kmh).sum
          / ((qualifying_vehicles vehicle_list intersection).length : ℝ)
          : ℝ) : EReal) := by
  unfold get_avg_velocity
  rw [avg_acc_spec]
  have hlen : 0 < (qualifying_vehicles vehicle_list intersection).length :=
    List.length_pos.mpr h
  simp [hlen]

open scoped Classical in
lemma mem_qualifying (vehicle_list : List Vehicle) (intersection : Vector3)
    (v : Vehicle) :
    v ∈ qualifying_vehicles vehicle_list intersection ↔
      v ∈ vehicle_list ∧ locDistance intersection v.location < 50 ∧
        v.traffic_light_state = TrafficLightState.Green := by
  unfold qualifying_vehicles
  rw [List.mem_filter, decide_eq_true_eq]
  unfold qualifies is_in_intersection
  tauto

/-! ## Concrete vehicles used by the traffic-analytics witnesses -/

/-- An intersection at the origin. -/
def interO : Vector3 := ⟨0, 0, 0⟩

/-- A vehicle standing on the intersection with a green light, moving at
25/9 m/s along x, i.e. exactly 10 km/h. -/
noncomputable def vGreen10 : Vehicle :=
  ⟨⟨0, 0, 0⟩, ⟨25 / 9, 0, 0⟩, TrafficLightState.Green⟩

/-- As `vGreen10` but at 50/9 m/s, i.e. exactly 20 km/h. -/
noncomputable def vGreen20 : Vehicle :=
  ⟨⟨0, 0, 0⟩, ⟨50 / 9, 0, 0⟩, TrafficLightState.Green⟩

/-- As `vGreen10` but at 35/9 m/s, i.e. exactly 14 km/h. -/
noncomputable def vGreen14 : Vehicle :=
  ⟨⟨0, 0, 0⟩, ⟨35 / 9, 0, 0⟩, TrafficLightState.Green⟩

lemma qualifies_origin {v : Vehicle} (hl : v.location = ⟨0, 0, 0⟩)
    (hg : v.traffic_light_state = TrafficLightState.Green) :
    qualifies v interO := by
  refine ⟨?_, hg⟩
  show locDistance interO v.location < 50
  rw [hl]
  norm_num [locDistance, interO, Real.sqrt_zero]

lemma speed_along_x {v : Vehicle} {c : ℝ} (hv : v.velocity = ⟨c, 0, 0⟩)
    (hc : 0 ≤ c) : speed_kmh v = c * 3.6 := by
  unfold speed_kmh
  rw [hv]
  show Real.sqrt (c ^ 2 + (0 : ℝ) ^ 2) * 3.6 = c * 3.6
  rw [show c ^ 2 + (0 : ℝ) ^ 2 = c ^ 2 by ring, Real.sqrt_sq hc]

lemma speed_vGreen10 : speed_kmh vGreen10 = 10 := by
  rw [speed_along_x rfl (by norm_num)]
  norm_num

lemma speed_vGreen20 : speed_kmh vGreen20 = 20 := by
  rw [speed_along_x rfl (by norm_num)]
  norm_num

lemma speed_vGreen14 : speed_kmh vGreen14 = 14 := by
  rw [speed_along_x rfl (by norm_num)]
  norm_num

/-! ## Claim C1 -/

/-- C1: `get_avg_velocity` returns positive infinity (the `float('inf')`
sentinel, modelled `⊤ : EReal`) when zero vehicles qualify; otherwise it
returns the exact arithmetic mean of the qualifying vehicles' planar speeds
(`math.hypot(v.x, v.y) * 3.6`); a vehicle qualifies iff its distance to the
intersection is strictly below the default radius 50 and its governing
traffic light state is green. -/
theorem get_avg_velocity_spec (vehicle_list : List Vehicle)
    (intersection : Vector3) :
    (qualifying_vehicles vehicle_list intersection = [] →
        get_avg_velocity vehicle_list intersection = ⊤) ∧
      (qualifying_vehicles vehicle_list intersection ≠ [] →
        get_avg_velocity vehicle_list intersection
          = ((((qualifying_vehicles vehicle_list intersection).map
                speed_kmh).sum
              / ((qualifying_vehicles vehicle_list intersection).length : ℝ)
              : ℝ) : EReal)) ∧
      (∀ v, v ∈ qualifying_vehicles vehicle_list intersection ↔
        v ∈ vehicle_list ∧ locDistance intersection v.location < 50 ∧
          v.traffic_light_state = TrafficLightState.Green) :=
  ⟨fun h => get_avg_velocity_empty h, fun h => get_avg_velocity_mean h,
    mem_qualifying vehicle_list intersection⟩

open scoped Classical in
/-- Witness for C1: two qualifying vehicles at 10 km/h and 20 km/h average
to exactly 15 km/h. -/
theorem get_avg_velocity_spec_witness :
    get_avg_velocity [vGreen10, vGreen20] interO = ((15 : ℝ) : EReal) := by
  have hq1 : qualifies vGreen10 interO := qualifies_origin rfl rfl
  have hq2 : qualifies vGreen20 interO := qualifies_origin rfl rfl
  have hfil : qualifying_vehicles [vGreen10, vGreen20] interO
      = [vGreen10, vGreen20] := by
    unfold qualifying_vehicles
    rw [List.filter_cons_of_pos (p := fun u => decide (qualifies u interO))
        (decide_eq_true hq1),
      List.filter_cons_of_pos (p := fun u => decide (qualifies u interO))
        (decide_eq_true hq2),
      List.filter_nil]
  have h := (get_avg_velocity_spec [vGreen10, vGreen20] interO).2.1
    (by rw [hfil]; exact List.cons_ne_nil _ _)
  rw [hfil] at h
  rw [h, EReal.coe_eq_coe_iff]
  rw [List.map_cons, List.map_cons, List.map_nil, List.sum_cons,
    List.sum_cons, List.sum_nil, speed_vGreen10, speed_vGreen20]
  norm_num

/-! ## Claim C2 -/

lemma congestion_aux_ne (vl : List Vehicle) (sl : ℝ) :
    ∀ (L : List (ℕ × Vector3)) (stats : ℕ → ℕ) (j : ℕ),
      (∀ p ∈ L, Prod.fst p ≠ j) →
      congestion_aux vl sl L stats j = stats j
  | [], _, _, _ => rfl
  | (i, inter) :: rest, stats, j, h => by
    have hij : i ≠ j := h (i, inter) (List.mem_cons_self _ _)
    simp only [congestion_aux]
    rw [congestion_aux_ne vl sl rest _ j
      (fun p hp => h p (List.mem_cons_of_mem _ hp))]
    split_ifs
    · simp [Ne.symm hij]
    · rfl

open scoped Classical in
lemma congestion_aux_enumFrom (vl : List Vehicle) (sl : ℝ) :
    ∀ (inters : List Vector3) (k : ℕ) (stats : ℕ → ℕ) (m : ℕ)
      (hm : m < inters.length),
      congestion_aux vl sl (List.enumFrom k inters) stats (k + m)
        = if get_avg_velocity vl (inters.get ⟨m, hm⟩)
              < ((0.5 * sl : ℝ) : EReal)
          then stats (k + m) + 1 else stats (k + m)
  | [], _, _, m, hm => absurd hm (by simp)
  | inter :: rest, k, stats, 0, hm => by
    rw [List.enumFrom_cons]
    simp only [congestion_aux]
    have hkeys : ∀ p ∈ List.enumFrom (k + 1) rest, Prod.fst p ≠ k + 0 := by
      rintro ⟨j, v⟩ hp
      obtain ⟨hj, -, -⟩ := List.mem_enumFrom hp
      omega
    rw [congestion_aux_ne vl sl _ _ _ hkeys]
    rw [show (inter :: rest).get ⟨0, hm⟩ = inter from rfl]
    split_ifs <;> simp
  | inter :: rest, k, stats, m + 1, hm => by
    rw [List.enumFrom_cons]
    simp only [congestion_aux]
    have hm' : m < rest.length := by
      simpa using Nat.lt_of_succ_lt_succ (by simpa using hm)
    have hidx : k + (m + 1) = k + 1 + m := by omega
    rw [hidx, congestion_aux_enumFrom vl sl rest (k + 1) _ m hm',
      List.get_cons_succ]
    have hne : ¬(k + 1 + m = k) := by omega
    split_ifs <;> simp [hne]

open scoped Classical in
/-- C2: with `speed_limit = 30.0`, `increment_congestion_statistics`
increments intersection `i`'s congestion counter by exactly one iff that
intersection's average approach velocity is strictly below half the speed
limit (15), leaves it unchanged otherwise, and in particular never counts an
intersection whose average is the positive-infinity sentinel (zero
qualifying vehicles). -/
theorem update_congestion_spec (vehicle_list : List Vehicle)
    (intersections : List Vector3) (stats : ℕ → ℕ) (i : ℕ)
    (hi : i < intersections.length) :
    (increment_congestion_statistics vehicle_list intersections stats 30 i
        = if get_avg_velocity vehicle_list (intersections.get ⟨i, hi⟩)
              < ((15 : ℝ) : EReal)
          then stats i + 1 else stats i) ∧
      (get_avg_velocity vehicle_list (intersections.get ⟨i, hi⟩) = ⊤ →
        increment_congestion_statistics vehicle_list intersections stats 30 i
          = stats i) := by
  have h := congestion_aux_enumFrom vehicle_list 30 intersections 0 stats i hi
  rw [Nat.zero_add] at h
  have h15 : ((0.5 * 30 : ℝ) : EReal) = ((15 : ℝ) : EReal) := by norm_num
  rw [h15] at h
  constructor
  · show congestion_aux vehicle_list 30 intersections.enum stats i = _
    rw [List.enum_eq_enumFrom, h]
  · intro htop
    show congestion_aux vehicle_list 30 intersections.enum stats i = stats i
    rw [List.enum_eq_enumFrom, h, htop, if_neg not_top_lt]

open scoped Classical in
/-- Witness for C2: one qualifying vehicle averaging 14 km/h (14 < 15)
increments the intersection's counter from 0 to 1. -/
theorem update_congestion_spec_witness :
    increment_congestion_statistics [vGreen14] [interO] (fun _ => 0) 30 0
      = 1 := by
  have hq : qualifies vGreen14 interO := qualifies_origin rfl rfl
  have hfil : qualifying_vehicles [vGreen14] interO = [vGreen14] := by
    unfold qualifying_vehicles
    rw [List.filter_cons_of_pos (p := fun u => decide (qualifies u interO))
        (decide_eq_true hq),
      List.filter_nil]
  have havg : get_avg_velocity [vGreen14] interO = ((14 : ℝ) : EReal) := by
    rw [get_avg_velocity_mean (by rw [hfil]; exact List.cons_ne_nil _ _),
      hfil, EReal.coe_eq_coe_iff, List.map_cons, List.map_nil, List.sum_cons,
      List.sum_nil, speed_vGreen14]
    norm_num
  have h := (update_congestion_spec [vGreen14] [interO] (fun _ => 0) 0
    (by simp)).1
  rw [h, if_pos]
  have hlt : get_avg_velocity [vGreen14] interO < ((15 : ℝ) : EReal) := by
    rw [havg]
    exact_mod_cast (by norm_num : (14 : ℝ) < 15)
  exact hlt

end CongestionSim
